import Mathlib

/-!
Shallow embedding of the request-handling core of the repository:
a user-service exposing CRUD endpoints over a Redis key-value store
(records serialized as JSON under `user:<id>`, a set `users:index` of all
record ids, and a `users_total` Prometheus gauge), plus the api-gateway
reverse proxy for `/api/users` and the Redis reconnection strategy.

Modelling conventions:
- Redis string values under `user:<id>` are modelled by `Stored`:
  `Stored.ok u` is a value produced by `JSON.stringify` of a user record
  (so `JSON.parse` succeeds and yields `u`), and `Stored.bad` is a value on
  which `JSON.parse` throws.
- The constant key namespace `user:` is a bijective decoration and is
  dropped: the model keys records directly by id.
- `users:index` is a Redis set; it is modelled as a list whose operations
  (`sAdd`, `sRem`) have set semantics on membership.
- The `users_total` gauge lives in process memory next to the store; it is
  carried in the same state record for specification purposes.
- Timestamps (`new Date().toISOString()`) are opaque strings supplied as a
  `now` parameter; `uuidv4()` is an id supplied as a `freshId` parameter.
- Each handler is a pure function from its request data and the current
  state to an HTTP response paired with the successor state.
-/

/-- A user record, as created by `POST /users`:
`{ id, name, email, created_at, updated_at }`. -/
structure User where
  id : String
  name : String
  email : String
  created_at : String
  updated_at : String
deriving DecidableEq

/-- A Redis string value stored under a `user:<id>` key:
either the JSON serialization of a user record, or a value on which
`JSON.parse` throws. -/
inductive Stored where
  | ok (u : User)
  | bad
deriving DecidableEq

/-- The state visible to the handlers: the `user:<id>` records, the
`users:index` set of ids, and the `users_total` gauge. -/
structure Store where
  records : List (String × Stored)
  index : List String
  usersTotal : Int
deriving DecidableEq

/-- The empty store: no records, empty index, gauge at zero. -/
def emptyStore : Store :=
  { records := [], index := [], usersTotal := 0 }

/-- Redis `GET user:<k>`: the value at key `k`, if present. -/
def Store.get (s : Store) (k : String) : Option Stored :=
  (s.records.find? (fun p => p.1 == k)).map Prod.snd

/-- Redis `SET user:<k> v`: write `v` at key `k`, overwriting any
previous value. -/
def Store.set (s : Store) (k : String) (v : Stored) : Store :=
  { s with records := (k, v) :: s.records.filter (fun p => !(p.1 == k)) }

/-- Redis `DEL user:<k>`: remove the binding at key `k` (a no-op when the
key is absent; the handler separately observes whether anything was
deleted via `Store.get`). -/
def Store.del (s : Store) (k : String) : Store :=
  { s with records := s.records.filter (fun p => !(p.1 == k)) }

/-- Redis `SADD users:index k`: add `k` to the index set. -/
def Store.sAdd (s : Store) (k : String) : Store :=
  if k ∈ s.index then s else { s with index := k :: s.index }

/-- Redis `SREM users:index k`: remove `k` from the index set. -/
def Store.sRem (s : Store) (k : String) : Store :=
  { s with index := s.index.filter (fun x => !(x == k)) }

/-- JSON response bodies produced by the user-service handlers. -/
inductive Body where
  | user (u : User)
  | users (us : List User)
  | errMsg (error message : String)
  | errId (error id : String)
  | errOnly (error : String)
  | empty
deriving DecidableEq

/-- An HTTP response of the user-service: status code and JSON body. -/
structure Response where
  status : Nat
  body : Body
deriving DecidableEq

/-- JavaScript truthiness test used by the handlers on body fields:
`!x` is true when the field is absent (`undefined`) or the empty
string. -/
def falsyStr : Option String → Bool
  | none => true
  | some s => s == ""

/-- Outcome of the duplicate-email scan in `app.post('/users')`. -/
inductive ScanOutcome where
  | noDup
  | dup
  | parseError
deriving DecidableEq

/-- The duplicate-email scan of `app.post('/users')`: for each id from
`sMembers(USERS_INDEX_KEY)` in order, `GET user:<id>`; a missing value is
skipped (`if (!rawUser) continue`), `JSON.parse` of an unparseable value
throws (caught by the handler's outer `try` as a 500), and a parsed user
whose `email` equals the requested one stops the scan as a duplicate. -/
def scanDup (s : Store) (email : String) : List String → ScanOutcome
  | [] => .noDup
  | id :: rest =>
    match s.get id with
    | none => scanDup s email rest
    | some .bad => .parseError
    | some (.ok u) => if u.email == email then .dup else scanDup s email rest

/-- `app.post('/users')`: validate that `name` and `email` are truthy,
scan for a duplicate email, then `SET` the new record, `SADD` its id into
the index, increment the `users_total` gauge, and answer 201 with the
record. -/
def createUser (name email : Option String) (freshId now : String) (s : Store) :
    Response × Store :=
  if falsyStr name || falsyStr email then
    ({ status := 400, body := Body.errMsg "validation_error" "name y email son obligatorios" }, s)
  else
    let user : User :=
      { id := freshId, name := name.getD "", email := email.getD ""
        created_at := now, updated_at := now }
    match scanDup s (email.getD "") s.index with
    | .parseError =>
        ({ status := 500, body := Body.errOnly "failed_to_create_user" }, s)
    | .dup =>
        ({ status := 409, body := Body.errMsg "duplicate_email" "Ya existe un usuario con ese email" }, s)
    | .noDup =>
        let s1 := (s.set user.id (Stored.ok user)).sAdd user.id
        ({ status := 201, body := Body.user user }, { s1 with usersTotal := s1.usersTotal + 1 })

/-- `app.get('/users/:id')`: `GET user:<id>`; a missing value answers 404,
`JSON.parse` throwing on the raw value is caught and answers 500, and a
parsed record answers 200. No state is modified. -/
def getUserById (rid : String) (s : Store) : Response :=
  match s.get rid with
  | none => { status := 404, body := Body.errId "user_not_found" rid }
  | some .bad => { status := 500, body := Body.errOnly "failed_to_fetch_user" }
  | some (.ok u) => { status := 200, body := Body.user u }

/-- `app.get('/users')`: on an empty index answer `[]` immediately (before
any record read and before the gauge update); otherwise pipeline a `GET`
per indexed id, drop null results (`filter(Boolean)`), map `JSON.parse`
with a per-element catch yielding null, drop the nulls, set the
`users_total` gauge to the resulting length and answer the list. -/
def listUsers (s : Store) : Response × Store :=
  if s.index.isEmpty then
    ({ status := 200, body := Body.users [] }, s)
  else
    let users := (s.index.map (fun id => s.get id)).filterMap (fun r =>
      match r with
      | some (Stored.ok u) => some u
      | _ => none)
    ({ status := 200, body := Body.users users }, { s with usersTotal := (users.length : Int) })

/-- `app.put('/users/:id')`: 400 unless at least one of `name`/`email` is
truthy; 404 when the key is absent; `JSON.parse` throwing on the stored
value is caught and answers 500; otherwise spread-merge only the truthy
fields onto the existing record (`...(name && { name })`), refresh
`updated_at`, and `SET` the result under `user:<updated.id>` (the id field
of the merged record). The spread-merge building the `updated` record is
`mergeUser`: a falsy (absent or empty) field spreads nothing, so the
existing value is kept; `id` and `created_at` are never touched. -/
def mergeUser (existing : User) (name email : Option String) (now : String) : User :=
  { existing with
    name := if falsyStr name then existing.name else name.getD ""
    email := if falsyStr email then existing.email else email.getD ""
    updated_at := now }

def updateUser (rid : String) (name email : Option String) (now : String) (s : Store) :
    Response × Store :=
  if falsyStr name && falsyStr email then
    ({ status := 400, body := Body.errMsg "validation_error" "debes mandar name o email al menos" }, s)
  else
    match s.get rid with
    | none => ({ status := 404, body := Body.errId "user_not_found" rid }, s)
    | some .bad => ({ status := 500, body := Body.errOnly "failed_to_update_user" }, s)
    | some (.ok existing) =>
        let updated : User := mergeUser existing name email now
        ({ status := 200, body := Body.user updated }, s.set updated.id (Stored.ok updated))

/-- `app.delete('/users/:id')`: `DEL user:<id>`; when nothing was deleted
answer 404 with the state untouched; otherwise `SREM` the id from the
index, decrement the `users_total` gauge, and answer 204 with no body. -/
def deleteUser (rid : String) (s : Store) : Response × Store :=
  match s.get rid with
  | none => ({ status := 404, body := Body.errId "user_not_found" rid }, s)
  | some _ =>
      let s1 := (s.del rid).sRem rid
      ({ status := 204, body := Body.empty }, { s1 with usersTotal := s1.usersTotal - 1 })

/-! ### Gateway proxy (`src/apps/api-gateway/src/index.js`) -/

/-- Outcome of the axios call the proxy makes to the user-service.
axios resolves only for success statuses (`success`), rejects with
`err.response` populated when the upstream answered an error status
(`httpError`, carrying the status and the optional
`err.response.data.message`), and rejects with no `err.response` when the
call could not complete (`networkFailure`: timeout or connection
failure). -/
inductive UpstreamResult where
  | success (status : Nat) (data : String)
  | httpError (status : Nat) (message : Option String)
  | networkFailure
deriving DecidableEq

/-- Gateway response bodies: a verbatim passthrough of the upstream body,
or the proxy's own `{ error, message }` object. -/
inductive GatewayBody where
  | passthrough (data : String)
  | errorMsg (error message : String)
deriving DecidableEq

/-- An HTTP response of the gateway. -/
structure GatewayResponse where
  status : Nat
  body : GatewayBody
deriving DecidableEq

/-- The `app.use('/api/users')` proxy handler: on axios success, echo the
upstream status and body; on failure, `statusCode = err.response?.status || 502`
and the body is `{ error: 'upstream_error', message }` where `message` is
the fixed unavailability text when the resolved status is 502 and
otherwise `err.response?.data?.message || 'Error procesando la petición'`. -/
def proxyUsers : UpstreamResult → GatewayResponse
  | .success st data => { status := st, body := GatewayBody.passthrough data }
  | .httpError st m =>
      { status := st
        body := GatewayBody.errorMsg "upstream_error"
          (if st == 502 then "User service no disponible"
           else m.getD "Error procesando la petición") }
  | .networkFailure =>
      { status := 502
        body := GatewayBody.errorMsg "upstream_error" "User service no disponible" }

/-- The index-record correspondence of the spec: an identifier appears in
`users:index` exactly when a record exists at `user:<id>`. -/
def invStore (s : Store) : Prop :=
  ∀ id : String, id ∈ s.index ↔ (s.get id).isSome

/-- A store whose index lists a corrupt record ahead of a record holding
an email about to be duplicated (used to exercise the duplicate scan). -/
def dupScanStore : Store :=
  { records :=
      [("b1", Stored.bad),
       ("u1", Stored.ok
         { id := "u1", name := "Alice", email := "a@x.com", created_at := "t0", updated_at := "t0" })]
    index := ["b1", "u1"]
    usersTotal := 1 }

/-! ### Redis reconnection strategy (`connectRedis`) -/

/-- What the `reconnectStrategy` callback tells the Redis client to do. -/
inductive ReconnectDecision where
  | retryAfter (ms : Nat)
  | giveUp
deriving DecidableEq

/-- The `reconnectStrategy` of `connectRedis`: for `retries > 10` return
an `Error` (the client stops reconnecting); otherwise wait
`Math.min(retries * 100, 3000)` milliseconds. -/
def reconnectStrategy (retries : Nat) : ReconnectDecision :=
  if retries > 10 then .giveUp
  else .retryAfter (min (retries * 100) 3000)

/-! ### Basic store lemmas -/

theorem find_filter_ne (l : List (String × Stored)) (k k' : String) (h : k' ≠ k) :
    (l.filter (fun p => !(p.1 == k))).find? (fun p => p.1 == k') =
      l.find? (fun p => p.1 == k') := by
  induction l with
  | nil => rfl
  | cons x xs ih =>
      by_cases hx : x.1 = k
      · rw [List.filter_cons_of_neg (by simp [hx]), ih,
          List.find?_cons_of_neg _ (by simp [hx, Ne.symm h])]
      · rw [List.filter_cons_of_pos (by simp [hx])]
        by_cases hx' : x.1 = k'
        · rw [List.find?_cons_of_pos _ (by simp [hx']),
            List.find?_cons_of_pos _ (by simp [hx'])]
        · rw [List.find?_cons_of_neg _ (by simp [hx']),
            List.find?_cons_of_neg _ (by simp [hx']), ih]

theorem find_filter_self (l : List (String × Stored)) (k : String) :
    (l.filter (fun p => !(p.1 == k))).find? (fun p => p.1 == k) = none := by
  induction l with
  | nil => rfl
  | cons x xs ih =>
      by_cases hx : x.1 = k
      · rw [List.filter_cons_of_neg (by simp [hx])]; exact ih
      · rw [List.filter_cons_of_pos (by simp [hx]),
          List.find?_cons_of_neg _ (by simp [hx])]; exact ih

theorem Store.get_set_self (s : Store) (k : String) (v : Stored) :
    (s.set k v).get k = some v := by
  unfold Store.get Store.set
  rw [List.find?_cons_of_pos _ (by simp)]
  rfl

theorem Store.get_set_ne (s : Store) (k k' : String) (v : Stored) (h : k' ≠ k) :
    (s.set k v).get k' = s.get k' := by
  unfold Store.get Store.set
  rw [List.find?_cons_of_neg _ (by simp [Ne.symm h]), find_filter_ne _ _ _ h]

theorem Store.get_del_self (s : Store) (k : String) :
    (s.del k).get k = none := by
  unfold Store.get Store.del
  rw [find_filter_self]
  rfl

theorem Store.get_del_ne (s : Store) (k k' : String) (h : k' ≠ k) :
    (s.del k).get k' = s.get k' := by
  unfold Store.get Store.del
  rw [find_filter_ne _ _ _ h]

theorem Store.index_set (s : Store) (k : String) (v : Stored) :
    (s.set k v).index = s.index := rfl

theorem Store.index_del (s : Store) (k : String) :
    (s.del k).index = s.index := rfl

theorem Store.get_sAdd (s : Store) (k k' : String) :
    (s.sAdd k).get k' = s.get k' := by
  unfold Store.sAdd
  split <;> rfl

theorem Store.get_sRem (s : Store) (k k' : String) :
    (s.sRem k).get k' = s.get k' := rfl

theorem Store.mem_sAdd (s : Store) (k k' : String) :
    k' ∈ (s.sAdd k).index ↔ k' = k ∨ k' ∈ s.index := by
  by_cases h : k ∈ s.index
  · simp only [Store.sAdd, if_pos h]
    constructor
    · exact fun hm => Or.inr hm
    · rintro (rfl | hm)
      exacts [h, hm]
  · simp only [Store.sAdd, if_neg h, List.mem_cons]

theorem Store.mem_sRem (s : Store) (k k' : String) :
    k' ∈ (s.sRem k).index ↔ k' ∈ s.index ∧ k' ≠ k := by
  simp [Store.sRem, List.mem_filter]

/-! ### Duplicate-email scan lemmas -/

theorem scanDup_eq_noDup (s : Store) (email : String) (l : List String)
    (hclean : ∀ id ∈ l, s.get id ≠ some Stored.bad)
    (hfree : ∀ id ∈ l, ∀ u, s.get id = some (Stored.ok u) → u.email ≠ email) :
    scanDup s email l = ScanOutcome.noDup := by
  induction l with
  | nil => rfl
  | cons id rest ih =>
      have hrec := ih (fun i hi => hclean i (List.mem_cons_of_mem _ hi))
        (fun i hi => hfree i (List.mem_cons_of_mem _ hi))
      cases hg : s.get id with
      | none => simpa [scanDup, hg] using hrec
      | some v =>
          cases v with
          | bad => exact absurd hg (hclean id (List.mem_cons_self _ _))
          | ok u =>
              have h2 : u.email ≠ email := hfree id (List.mem_cons_self _ _) u hg
              simpa [scanDup, hg, h2] using hrec

theorem scanDup_eq_dup (s : Store) (email : String) (l : List String)
    (hclean : ∀ id ∈ l, s.get id ≠ some Stored.bad)
    (hdup : ∃ id ∈ l, ∃ u, s.get id = some (Stored.ok u) ∧ u.email = email) :
    scanDup s email l = ScanOutcome.dup := by
  induction l with
  | nil =>
      obtain ⟨id, h, _⟩ := hdup
      exact absurd h (List.not_mem_nil id)
  | cons id rest ih =>
      have hrec := fun hd => ih (fun i hi => hclean i (List.mem_cons_of_mem _ hi)) hd
      cases hg : s.get id with
      | none =>
          obtain ⟨j, hj, u, hju, hue⟩ := hdup
          rcases List.mem_cons.mp hj with rfl | hjr
          · rw [hg] at hju
            exact absurd hju (by simp)
          · simpa [scanDup, hg] using hrec ⟨j, hjr, u, hju, hue⟩
      | some v =>
          cases v with
          | bad => exact absurd hg (hclean id (List.mem_cons_self _ _))
          | ok u =>
              by_cases he : u.email = email
              · simp [scanDup, hg, he]
              · obtain ⟨j, hj, w, hjw, hwe⟩ := hdup
                rcases List.mem_cons.mp hj with rfl | hjr
                · rw [hg] at hjw
                  have : u = w := by
                    injection hjw with h'
                    injection h'
                  exact absurd hwe (this ▸ he)
                · simpa [scanDup, hg, he] using hrec ⟨j, hjr, w, hjw, hwe⟩

theorem Store.usersTotal_set (s : Store) (k : String) (v : Stored) :
    (s.set k v).usersTotal = s.usersTotal := rfl

theorem Store.usersTotal_sAdd (s : Store) (k : String) :
    (s.sAdd k).usersTotal = s.usersTotal := by
  unfold Store.sAdd
  split <;> rfl

theorem Store.index_sAdd_of_mem (s : Store) (k : String) (h : k ∈ s.index) :
    (s.sAdd k).index = s.index := by
  unfold Store.sAdd
  rw [if_pos h]

/-! ### Handler-unfolding lemmas -/

theorem createUser_invalid (nm em : Option String) (fid now : String) (s : Store)
    (h : (falsyStr nm || falsyStr em) = true) :
    createUser nm em fid now s =
      ({ status := 400, body := Body.errMsg "validation_error" "name y email son obligatorios" }, s) := by
  simp [createUser, h]

theorem createUser_parseError (nm em : Option String) (fid now : String) (s : Store)
    (hfn : falsyStr nm = false) (hfe : falsyStr em = false)
    (hscan : scanDup s (em.getD "") s.index = ScanOutcome.parseError) :
    createUser nm em fid now s =
      ({ status := 500, body := Body.errOnly "failed_to_create_user" }, s) := by
  simp [createUser, hfn, hfe, hscan]

theorem createUser_dup (nm em : Option String) (fid now : String) (s : Store)
    (hfn : falsyStr nm = false) (hfe : falsyStr em = false)
    (hscan : scanDup s (em.getD "") s.index = ScanOutcome.dup) :
    createUser nm em fid now s =
      ({ status := 409, body := Body.errMsg "duplicate_email" "Ya existe un usuario con ese email" }, s) := by
  simp [createUser, hfn, hfe, hscan]

theorem createUser_noDup (nm em : Option String) (fid now : String) (s : Store)
    (hfn : falsyStr nm = false) (hfe : falsyStr em = false)
    (hscan : scanDup s (em.getD "") s.index = ScanOutcome.noDup) :
    createUser nm em fid now s =
      ({ status := 201
         body := Body.user
           { id := fid, name := nm.getD "", email := em.getD ""
             created_at := now, updated_at := now } },
       { (s.set fid (Stored.ok
           { id := fid, name := nm.getD "", email := em.getD ""
             created_at := now, updated_at := now })).sAdd fid with
         usersTotal := s.usersTotal + 1 }) := by
  simp only [createUser, hfn, hfe, hscan, Bool.or_self, Bool.false_eq_true, if_false]
  rw [Prod.mk.injEq]
  refine ⟨rfl, ?_⟩
  have ht : ((s.set fid (Stored.ok
      { id := fid, name := nm.getD "", email := em.getD ""
        created_at := now, updated_at := now })).sAdd fid).usersTotal = s.usersTotal := by
    rw [Store.usersTotal_sAdd, Store.usersTotal_set]
  rw [ht]

theorem updateUser_invalid (rid : String) (nm em : Option String) (now : String) (s : Store)
    (h : (falsyStr nm && falsyStr em) = true) :
    updateUser rid nm em now s =
      ({ status := 400, body := Body.errMsg "validation_error" "debes mandar name o email al menos" }, s) := by
  simp [updateUser, h]

theorem updateUser_missing (rid : String) (nm em : Option String) (now : String) (s : Store)
    (hv : (falsyStr nm && falsyStr em) = false) (hget : s.get rid = none) :
    updateUser rid nm em now s =
      ({ status := 404, body := Body.errId "user_not_found" rid }, s) := by
  simp [updateUser, hv, hget]

theorem updateUser_corrupt (rid : String) (nm em : Option String) (now : String) (s : Store)
    (hv : (falsyStr nm && falsyStr em) = false) (hget : s.get rid = some Stored.bad) :
    updateUser rid nm em now s =
      ({ status := 500, body := Body.errOnly "failed_to_update_user" }, s) := by
  simp [updateUser, hv, hget]

theorem updateUser_found (rid : String) (nm em : Option String) (now : String) (s : Store)
    (ex : User)
    (hv : (falsyStr nm && falsyStr em) = false) (hget : s.get rid = some (Stored.ok ex)) :
    updateUser rid nm em now s =
      ({ status := 200, body := Body.user (mergeUser ex nm em now) },
       s.set (mergeUser ex nm em now).id (Stored.ok (mergeUser ex nm em now))) := by
  simp [updateUser, hv, hget]

theorem deleteUser_missing (rid : String) (s : Store) (hget : s.get rid = none) :
    deleteUser rid s = ({ status := 404, body := Body.errId "user_not_found" rid }, s) := by
  simp [deleteUser, hget]

theorem deleteUser_found (rid : String) (s : Store) (v : Stored) (hget : s.get rid = some v) :
    deleteUser rid s =
      ({ status := 204, body := Body.empty },
       { (s.del rid).sRem rid with usersTotal := s.usersTotal - 1 }) := by
  simp only [deleteUser, hget]
  rfl

theorem Store.get_mkTotal (s : Store) (t : Int) (k : String) :
    (Store.mk s.records s.index t).get k = s.get k := rfl

theorem Store.index_mkTotal (s : Store) (t : Int) :
    (Store.mk s.records s.index t).index = s.index := rfl

/-! ### Claim theorems -/

/-- C1: for every request body whose `name` and `email` are non-empty
strings, sent against a store whose indexed records all deserialize and
none of which already holds the requested email, `POST /users` responds
201 with a record carrying the freshly generated id, the given name and
email, and `created_at` equal to `updated_at`, and the record is written
and indexed under that id; for every body where `name` or `email` is
missing or empty, it responds 400 with error `validation_error` and
writes nothing to the store. -/
theorem create_user_spec :
    (∀ (nm em fid now : String) (s : Store),
      nm ≠ "" → em ≠ "" →
      (∀ id ∈ s.index, s.get id ≠ some Stored.bad) →
      (∀ id ∈ s.index, ∀ u, s.get id = some (Stored.ok u) → u.email ≠ em) →
      ∃ u : User,
        (createUser (some nm) (some em) fid now s).1 =
          { status := 201, body := Body.user u } ∧
        u.id = fid ∧ u.name = nm ∧ u.email = em ∧ u.created_at = u.updated_at ∧
        (createUser (some nm) (some em) fid now s).2.get fid = some (Stored.ok u) ∧
        fid ∈ (createUser (some nm) (some em) fid now s).2.index) ∧
    (∀ (nm em : Option String) (fid now : String) (s : Store),
      (falsyStr nm || falsyStr em) = true →
      createUser nm em fid now s =
        ({ status := 400, body := Body.errMsg "validation_error" "name y email son obligatorios" }, s)) := by
  constructor
  · intro nm em fid now s hn he hclean hfree
    have hfn : falsyStr (some nm) = false := by simp [falsyStr, hn]
    have hfe : falsyStr (some em) = false := by simp [falsyStr, he]
    have hscan : scanDup s ((some em).getD "") s.index = ScanOutcome.noDup := by
      simpa using scanDup_eq_noDup s em s.index hclean hfree
    have hcu := createUser_noDup (some nm) (some em) fid now s hfn hfe hscan
    refine ⟨{ id := fid, name := nm, email := em, created_at := now, updated_at := now },
      ?_, rfl, rfl, rfl, rfl, ?_, ?_⟩
    · rw [hcu]
      rfl
    · rw [hcu, Store.get_mkTotal, Store.get_sAdd, Store.get_set_self]
      rfl
    · rw [hcu, Store.index_mkTotal, Store.mem_sAdd]
      exact Or.inl rfl
  · intro nm em fid now s h
    exact createUser_invalid nm em fid now s h

/-- C1 witness: creating `Alice` against the empty store. -/
theorem create_user_spec_witness :
    (∃ u : User,
      (createUser (some "Alice") (some "a@x.com") "u1" "t0" emptyStore).1 =
        { status := 201, body := Body.user u } ∧
      u.id = "u1" ∧ u.name = "Alice" ∧ u.email = "a@x.com" ∧
      u.created_at = u.updated_at ∧
      (createUser (some "Alice") (some "a@x.com") "u1" "t0" emptyStore).2.get "u1" =
        some (Stored.ok u) ∧
      "u1" ∈ (createUser (some "Alice") (some "a@x.com") "u1" "t0" emptyStore).2.index) ∧
    createUser (some "") (some "a@x.com") "u1" "t0" emptyStore =
      ({ status := 400, body := Body.errMsg "validation_error" "name y email son obligatorios" },
       emptyStore) :=
  ⟨create_user_spec.1 "Alice" "a@x.com" "u1" "t0" emptyStore
      (by decide) (by decide)
      (by intro id h; exact absurd h (List.not_mem_nil id))
      (by intro id h; exact absurd h (List.not_mem_nil id)),
   create_user_spec.2 (some "") (some "a@x.com") "u1" "t0" emptyStore (by decide)⟩

/-- C2 counterexample: `dupScanStore` has an indexed record with email
`a@x.com`, yet `POST /users` with that email answers 500
`failed_to_create_user` rather than 409: the duplicate scan `JSON.parse`s
the corrupt record `b1` first and throws. -/
theorem create_duplicate_counterexample :
    ("u1" ∈ dupScanStore.index ∧
      dupScanStore.get "u1" = some (Stored.ok
        { id := "u1", name := "Alice", email := "a@x.com", created_at := "t0", updated_at := "t0" })) ∧
    (createUser (some "Bob") (some "a@x.com") "u2" "t1" dupScanStore).1.status = 500 ∧
    (createUser (some "Bob") (some "a@x.com") "u2" "t1" dupScanStore).1.status ≠ 409 := by
  decide

/-- C2 (amended): in every store state whose indexed records all
deserialize and in which some indexed record holds email `em`, `POST
/users` with a non-empty name and email `em` responds 409
`duplicate_email` and writes no record and no index entry; in particular,
two sequential creates with the same email yield 201 then 409. (The
amendment adds the deserializability hypothesis: a corrupt indexed record
encountered by the scan before the duplicate turns the response into a
500, as the counterexample shows.) -/
theorem create_duplicate_409 :
    (∀ (nm em fid now : String) (s : Store),
      nm ≠ "" → em ≠ "" →
      (∀ id ∈ s.index, s.get id ≠ some Stored.bad) →
      (∃ id ∈ s.index, ∃ u, s.get id = some (Stored.ok u) ∧ u.email = em) →
      createUser (some nm) (some em) fid now s =
        ({ status := 409, body := Body.errMsg "duplicate_email" "Ya existe un usuario con ese email" }, s)) ∧
    (∀ (n1 n2 em fid1 fid2 t1 t2 : String),
      n1 ≠ "" → n2 ≠ "" → em ≠ "" →
      (createUser (some n1) (some em) fid1 t1 emptyStore).1.status = 201 ∧
      (createUser (some n2) (some em) fid2 t2
        (createUser (some n1) (some em) fid1 t1 emptyStore).2).1.status = 409) := by
  have hmain : ∀ (nm em fid now : String) (s : Store),
      nm ≠ "" → em ≠ "" →
      (∀ id ∈ s.index, s.get id ≠ some Stored.bad) →
      (∃ id ∈ s.index, ∃ u, s.get id = some (Stored.ok u) ∧ u.email = em) →
      createUser (some nm) (some em) fid now s =
        ({ status := 409, body := Body.errMsg "duplicate_email" "Ya existe un usuario con ese email" }, s) := by
    intro nm em fid now s hn he hclean hdup
    have hfn : falsyStr (some nm) = false := by simp [falsyStr, hn]
    have hfe : falsyStr (some em) = false := by simp [falsyStr, he]
    have hscan : scanDup s ((some em).getD "") s.index = ScanOutcome.dup := by
      simpa using scanDup_eq_dup s em s.index hclean hdup
    exact createUser_dup (some nm) (some em) fid now s hfn hfe hscan
  refine ⟨hmain, ?_⟩
  intro n1 n2 em fid1 fid2 t1 t2 h1 h2 h3
  have hfn1 : falsyStr (some n1) = false := by simp [falsyStr, h1]
  have hfe : falsyStr (some em) = false := by simp [falsyStr, h3]
  have hscan1 : scanDup emptyStore ((some em).getD "") emptyStore.index = ScanOutcome.noDup := rfl
  have hcu := createUser_noDup (some n1) (some em) fid1 t1 emptyStore hfn1 hfe hscan1
  set u1 : User :=
    { id := fid1, name := n1, email := em, created_at := t1, updated_at := t1 } with hu1
  constructor
  · rw [hcu]
  · have hidx : (createUser (some n1) (some em) fid1 t1 emptyStore).2.index = [fid1] := by
      rw [hcu, Store.index_mkTotal]
      simp [Store.sAdd, Store.set, emptyStore]
    have hget : (createUser (some n1) (some em) fid1 t1 emptyStore).2.get fid1 =
        some (Stored.ok u1) := by
      rw [hcu, Store.get_mkTotal, Store.get_sAdd, Store.get_set_self]
      rfl
    have h409 := hmain n2 em fid2 t2 (createUser (some n1) (some em) fid1 t1 emptyStore).2 h2 h3
      (by
        intro id hid
        rw [hidx] at hid
        rcases List.mem_singleton.mp hid with rfl
        rw [hget]
        exact fun hbad => by cases hbad)
      ⟨fid1, by rw [hidx]; exact List.mem_singleton.mpr rfl, u1, hget, rfl⟩
    rw [h409]

/-- C2 witness: two sequential creates with the same email against the
empty store answer 201 and then 409. -/
theorem create_duplicate_409_witness :
    (createUser (some "A") (some "a@x.com") "u1" "t0" emptyStore).1.status = 201 ∧
    (createUser (some "B") (some "a@x.com") "u2" "t1"
      (createUser (some "A") (some "a@x.com") "u1" "t0" emptyStore).2).1.status = 409 :=
  create_duplicate_409.2 "A" "B" "a@x.com" "u1" "u2" "t0" "t1"
    (by decide) (by decide) (by decide)

/-- C8 counterexample: the reconnection strategy does not keep retrying
indefinitely — at attempt number 11 it gives up instead of yielding a
delay, so the claimed unbounded retrying after a later disconnect is
false. -/
theorem reconnect_not_indefinite :
    ¬ (∀ n : Nat, ∃ d : Nat, reconnectStrategy n = ReconnectDecision.retryAfter d) := by
  intro h
  obtain ⟨d, hd⟩ := h 11
  simp [reconnectStrategy] at hd

/-- C8 (amended): for every attempt number `n ≤ 10` the strategy waits
`min (n * 100) 3000` milliseconds, every delay it ever yields is at most
3000 ms, and for every `n > 10` it gives up; the bounded maximum applies
to every reconnection episode, not only at startup, so a later disconnect
is retried at most 10 times (readiness is flipped to false by the error
handler, but retrying is not indefinite). -/
theorem reconnect_strategy_spec :
    (∀ n : Nat, n ≤ 10 →
      reconnectStrategy n = ReconnectDecision.retryAfter (min (n * 100) 3000)) ∧
    (∀ n d : Nat, reconnectStrategy n = ReconnectDecision.retryAfter d → d ≤ 3000) ∧
    (∀ n : Nat, 10 < n → reconnectStrategy n = ReconnectDecision.giveUp) := by
  refine ⟨?_, ?_, ?_⟩
  · intro n hn
    rw [reconnectStrategy, if_neg (by omega)]
  · intro n d hd
    rw [reconnectStrategy] at hd
    by_cases hn : n > 10
    · rw [if_pos hn] at hd
      cases hd
    · rw [if_neg hn] at hd
      injection hd with h
      omega
  · intro n hn
    rw [reconnectStrategy, if_pos hn]

/-- C8 witness: attempt 5 waits 500 ms and attempt 11 gives up. -/
theorem reconnect_strategy_spec_witness :
    reconnectStrategy 5 = ReconnectDecision.retryAfter (min (5 * 100) 3000) ∧
    reconnectStrategy 11 = ReconnectDecision.giveUp :=
  ⟨reconnect_strategy_spec.1 5 (by decide), reconnect_strategy_spec.2.2 11 (by decide)⟩

/-- C6: for every proxied request under `/api/users`, a completed upstream
response with a success status is passed through with identical status and
body; an upstream call that could not complete (network failure or
timeout) is answered with exactly 502 and error `upstream_error`; and an
upstream error status is passed through as the response status together
with an error body whose message is extracted from the upstream payload
(with the fixed fallback texts of the handler). -/
theorem gateway_proxy_spec :
    (∀ (st : Nat) (data : String),
      proxyUsers (UpstreamResult.success st data) =
        { status := st, body := GatewayBody.passthrough data }) ∧
    (proxyUsers UpstreamResult.networkFailure =
      { status := 502, body := GatewayBody.errorMsg "upstream_error" "User service no disponible" }) ∧
    (∀ (st : Nat) (m : Option String),
      (proxyUsers (UpstreamResult.httpError st m)).status = st ∧
      ∃ msg : String,
        proxyUsers (UpstreamResult.httpError st m) =
          { status := st, body := GatewayBody.errorMsg "upstream_error" msg } ∧
        (st ≠ 502 → ∀ t : String, m = some t → msg = t)) := by
  refine ⟨fun st data => rfl, rfl, fun st m => ⟨rfl, ?_⟩⟩
  refine ⟨if st == 502 then "User service no disponible"
    else m.getD "Error procesando la petición", rfl, ?_⟩
  intro hne t hm
  rw [if_neg (by simpa using hne), hm]
  rfl

/-- C7: for every id absent from the store, `DELETE /users/:id` responds
404 with error `user_not_found` and returns the store completely
unchanged: no record, no index entry and no gauge value is altered. -/
theorem delete_missing_404 (rid : String) (s : Store) (h : s.get rid = none) :
    deleteUser rid s = ({ status := 404, body := Body.errId "user_not_found" rid }, s) :=
  deleteUser_missing rid s h

/-- C7 witness: deleting an id that is not in a one-record store. -/
theorem delete_missing_404_witness :
    deleteUser "zz"
        { records := [("u1", Stored.ok
            { id := "u1", name := "Alice", email := "a@x.com", created_at := "t0", updated_at := "t0" })]
          index := ["u1"], usersTotal := 1 } =
      ({ status := 404, body := Body.errId "user_not_found" "zz" },
       { records := [("u1", Stored.ok
           { id := "u1", name := "Alice", email := "a@x.com", created_at := "t0", updated_at := "t0" })]
         index := ["u1"], usersTotal := 1 }) :=
  delete_missing_404 "zz" _ (by decide)

/-- C10: for every id whose key exists in the store but holds a value on
which `JSON.parse` throws, `GET /users/:id` responds 500 with error
`failed_to_fetch_user` — neither 404 nor a success — while the list
endpoint still answers 200 on the same store (it tolerates the corrupt
record by dropping it). -/
theorem get_corrupt_record_500 (rid : String) (s : Store) (h : s.get rid = some Stored.bad) :
    getUserById rid s = { status := 500, body := Body.errOnly "failed_to_fetch_user" } ∧
    (getUserById rid s).status ≠ 404 ∧ (getUserById rid s).status ≠ 200 ∧
    (listUsers s).1.status = 200 := by
  have hg : getUserById rid s = { status := 500, body := Body.errOnly "failed_to_fetch_user" } := by
    simp [getUserById, h]
  refine ⟨hg, by rw [hg]; decide, by rw [hg]; decide, ?_⟩
  rw [listUsers]
  split <;> rfl

/-- C10 witness: a store whose only key holds an unparseable value. -/
theorem get_corrupt_record_500_witness :
    getUserById "b1" { records := [("b1", Stored.bad)], index := ["b1"], usersTotal := 1 } =
      { status := 500, body := Body.errOnly "failed_to_fetch_user" } ∧
    (getUserById "b1" { records := [("b1", Stored.bad)], index := ["b1"], usersTotal := 1 }).status ≠ 404 ∧
    (getUserById "b1" { records := [("b1", Stored.bad)], index := ["b1"], usersTotal := 1 }).status ≠ 200 ∧
    (listUsers { records := [("b1", Stored.bad)], index := ["b1"], usersTotal := 1 }).1.status = 200 :=
  get_corrupt_record_500 "b1" _ (by decide)

/-- C4: for every existing, deserializable record whose embedded id
equals its key, a `PUT /users/:id` whose body carries only a non-empty
`name` answers 200 with a record whose `name` is the supplied value and
whose `updated_at` is the request time, while `email`, `id` and
`created_at` keep the stored values, and the merged record is written
back under the same `user:<id>` key. -/
theorem update_name_only_spec (rid nm now : String) (s : Store) (ex : User)
    (hn : nm ≠ "") (hget : s.get rid = some (Stored.ok ex)) (hid : ex.id = rid) :
    ∃ u : User,
      updateUser rid (some nm) none now s =
        ({ status := 200, body := Body.user u }, s.set rid (Stored.ok u)) ∧
      u.name = nm ∧ u.updated_at = now ∧
      u.email = ex.email ∧ u.id = ex.id ∧ u.created_at = ex.created_at := by
  have hv : (falsyStr (some nm) && falsyStr none) = false := by
    simp [falsyStr, hn]
  have hupd := updateUser_found rid (some nm) none now s ex hv hget
  refine ⟨mergeUser ex (some nm) none now, ?_, ?_, rfl, rfl, rfl, rfl⟩
  · rw [hupd]
    have hkey : (mergeUser ex (some nm) none now).id = rid := hid
    rw [hkey]
  · simp [mergeUser, falsyStr, hn]

/-- C4 witness: renaming the single record of a one-record store. -/
theorem update_name_only_spec_witness :
    ∃ u : User,
      updateUser "u1" (some "Al") none "t2"
          { records := [("u1", Stored.ok
              { id := "u1", name := "Alice", email := "a@x.com", created_at := "t0", updated_at := "t0" })]
            index := ["u1"], usersTotal := 1 } =
        ({ status := 200, body := Body.user u },
         Store.set
           { records := [("u1", Stored.ok
               { id := "u1", name := "Alice", email := "a@x.com", created_at := "t0", updated_at := "t0" })]
             index := ["u1"], usersTotal := 1 } "u1" (Stored.ok u)) ∧
      u.name = "Al" ∧ u.updated_at = "t2" ∧
      u.email = "a@x.com" ∧ u.id = "u1" ∧ u.created_at = "t0" :=
  update_name_only_spec "u1" "Al" "t2" _
    { id := "u1", name := "Alice", email := "a@x.com", created_at := "t0", updated_at := "t0" }
    (by decide) (by decide) (by decide)

/-- C9: a `PUT /users/:id` request whose body holds an empty string for
one field and a non-empty value for the other passes validation and
answers 200, but the empty-string field is silently ignored: the merged
record keeps the stored value of that field, only the other field and
`updated_at` change, and `id` and `created_at` are untouched. The record
written back is exactly that merged record. -/
theorem update_empty_field_ignored :
    (∀ (rid em now : String) (s : Store) (ex : User),
      em ≠ "" → s.get rid = some (Stored.ok ex) →
      ∃ u : User,
        (updateUser rid (some "") (some em) now s).1 =
          { status := 200, body := Body.user u } ∧
        (updateUser rid (some "") (some em) now s).2 = s.set u.id (Stored.ok u) ∧
        u.name = ex.name ∧ u.email = em ∧ u.updated_at = now ∧
        u.id = ex.id ∧ u.created_at = ex.created_at) ∧
    (∀ (rid nm now : String) (s : Store) (ex : User),
      nm ≠ "" → s.get rid = some (Stored.ok ex) →
      ∃ u : User,
        (updateUser rid (some nm) (some "") now s).1 =
          { status := 200, body := Body.user u } ∧
        (updateUser rid (some nm) (some "") now s).2 = s.set u.id (Stored.ok u) ∧
        u.name = nm ∧ u.email = ex.email ∧ u.updated_at = now ∧
        u.id = ex.id ∧ u.created_at = ex.created_at) := by
  constructor
  · intro rid em now s ex he hget
    have hv : (falsyStr (some "") && falsyStr (some em)) = false := by
      simp [falsyStr, he]
    have hupd := updateUser_found rid (some "") (some em) now s ex hv hget
    refine ⟨mergeUser ex (some "") (some em) now, ?_, ?_, rfl, ?_, rfl, rfl, rfl⟩
    · rw [hupd]
    · rw [hupd]
    · simp [mergeUser, falsyStr, he]
  · intro rid nm now s ex hn hget
    have hv : (falsyStr (some nm) && falsyStr (some "")) = false := by
      simp [falsyStr, hn]
    have hupd := updateUser_found rid (some nm) (some "") now s ex hv hget
    refine ⟨mergeUser ex (some nm) (some "") now, ?_, ?_, ?_, rfl, rfl, rfl, rfl⟩
    · rw [hupd]
    · rw [hupd]
    · simp [mergeUser, falsyStr, hn]

/-- C9 witness: an empty `name` with a fresh `email`, and an empty
`email` with a fresh `name`, against a one-record store. -/
theorem update_empty_field_ignored_witness :
    (∃ u : User,
      (updateUser "u1" (some "") (some "b@x.com") "t2"
          { records := [("u1", Stored.ok
              { id := "u1", name := "Alice", email := "a@x.com", created_at := "t0", updated_at := "t0" })]
            index := ["u1"], usersTotal := 1 }).1 =
        { status := 200, body := Body.user u } ∧
      (updateUser "u1" (some "") (some "b@x.com") "t2"
          { records := [("u1", Stored.ok
              { id := "u1", name := "Alice", email := "a@x.com", created_at := "t0", updated_at := "t0" })]
            index := ["u1"], usersTotal := 1 }).2 =
        Store.set
          { records := [("u1", Stored.ok
              { id := "u1", name := "Alice", email := "a@x.com", created_at := "t0", updated_at := "t0" })]
            index := ["u1"], usersTotal := 1 } u.id (Stored.ok u) ∧
      u.name = "Alice" ∧ u.email = "b@x.com" ∧ u.updated_at = "t2" ∧
      u.id = "u1" ∧ u.created_at = "t0") :=
  update_empty_field_ignored.1 "u1" "b@x.com" "t2" _
    { id := "u1", name := "Alice", email := "a@x.com", created_at := "t0", updated_at := "t0" }
    (by decide) (by decide)

/-- C3: the index-record correspondence (`invStore`) is preserved by every
completed create and delete: a create either leaves the state untouched
(validation failure, duplicate, scan error) or writes the record and adds
its id to the index; a delete either leaves the state untouched (missing
id) or removes the record and its index entry. -/
theorem crud_preserves_index_invariant :
    (∀ (nm em : Option String) (fid now : String) (s : Store),
      invStore s → invStore (createUser nm em fid now s).2) ∧
    (∀ (rid : String) (s : Store),
      invStore s → invStore (deleteUser rid s).2) := by
  constructor
  · intro nm em fid now s h
    cases hval : (falsyStr nm || falsyStr em) with
    | true =>
        rw [createUser_invalid nm em fid now s hval]
        exact h
    | false =>
        have hfn : falsyStr nm = false := by
          rcases Bool.or_eq_false_iff.mp hval with ⟨h1, _⟩
          exact h1
        have hfe : falsyStr em = false := by
          rcases Bool.or_eq_false_iff.mp hval with ⟨_, h2⟩
          exact h2
        cases hscan : scanDup s (em.getD "") s.index with
        | parseError =>
            rw [createUser_parseError nm em fid now s hfn hfe hscan]
            exact h
        | dup =>
            rw [createUser_dup nm em fid now s hfn hfe hscan]
            exact h
        | noDup =>
            rw [createUser_noDup nm em fid now s hfn hfe hscan]
            intro id
            rw [Store.index_mkTotal, Store.get_mkTotal, Store.mem_sAdd, Store.get_sAdd]
            by_cases hid : id = fid
            · subst hid
              rw [Store.get_set_self]
              simp
            · rw [Store.get_set_ne _ _ _ _ hid]
              simp only [hid, false_or]
              exact h id
  · intro rid s h
    cases hget : s.get rid with
    | none =>
        rw [deleteUser_missing rid s hget]
        exact h
    | some v =>
        rw [deleteUser_found rid s v hget]
        intro id
        rw [Store.index_mkTotal, Store.get_mkTotal, Store.mem_sRem, Store.get_sRem,
          Store.index_del]
        by_cases hid : id = rid
        · subst hid
          rw [Store.get_del_self]
          simp
        · rw [Store.get_del_ne _ _ _ hid]
          simp only [hid, ne_eq, not_false_iff, and_true]
          exact h id

/-- C3 witness: the invariant holds on the empty store and is preserved by
a create against it and by a delete of a missing id. -/
theorem crud_preserves_index_invariant_witness :
    invStore (createUser (some "A") (some "a@x.com") "u1" "t0" emptyStore).2 ∧
    invStore (deleteUser "zz" emptyStore).2 := by
  have hinv : invStore emptyStore := by
    intro id
    simp [invStore, emptyStore, Store.get]
  exact ⟨crud_preserves_index_invariant.1 (some "A") (some "a@x.com") "u1" "t0" emptyStore hinv,
    crud_preserves_index_invariant.2 "zz" emptyStore hinv⟩

theorem parsed_length_eq_filter_length (s : Store) (l : List String) :
    ((l.map (fun id => s.get id)).filterMap (fun r =>
        match r with
        | some (Stored.ok u) => some u
        | _ => none)).length =
      (l.filter (fun id =>
        match s.get id with
        | some (Stored.ok _) => true
        | _ => false)).length := by
  induction l with
  | nil => rfl
  | cons id rest ih =>
      cases hg : s.get id with
      | none => simpa [List.filterMap_cons, List.filter_cons, hg] using ih
      | some v =>
          cases v with
          | ok u => simpa [List.filterMap_cons, List.filter_cons, hg] using ih
          | bad => simpa [List.filterMap_cons, List.filter_cons, hg] using ih

/-- C5: `GET /users` answers `[]` with the state untouched when the index
is empty; otherwise it answers 200 with a list of users each of which
comes from an indexed id whose record exists and deserializes, the
length of that list equals the number of such indexed ids (missing and
unparseable records are silently dropped), and the only state change is
the `users_total` gauge being set to that length. -/
theorem list_users_spec (s : Store) :
    (s.index = [] → listUsers s = ({ status := 200, body := Body.users [] }, s)) ∧
    (s.index ≠ [] →
      ∃ us : List User,
        (listUsers s).1 = { status := 200, body := Body.users us } ∧
        (listUsers s).2 = { s with usersTotal := (us.length : Int) } ∧
        us.length = (s.index.filter (fun id =>
          match s.get id with
          | some (Stored.ok _) => true
          | _ => false)).length ∧
        ∀ u ∈ us, ∃ id ∈ s.index, s.get id = some (Stored.ok u)) := by
  constructor
  · intro h
    rw [listUsers, if_pos (by simp [h])]
  · intro h
    have hne : s.index.isEmpty = false := by
      cases hidx : s.index with
      | nil => exact absurd hidx h
      | cons a l => rfl
    refine ⟨(s.index.map (fun id => s.get id)).filterMap (fun r =>
        match r with
        | some (Stored.ok u) => some u
        | _ => none), ?_, ?_, ?_, ?_⟩
    · rw [listUsers, if_neg (by simp [hne])]
    · rw [listUsers, if_neg (by simp [hne])]
    · exact parsed_length_eq_filter_length s s.index
    · intro u hu
      obtain ⟨r, hr, hru⟩ := List.mem_filterMap.mp hu
      obtain ⟨id, hid, hidr⟩ := List.mem_map.mp hr
      refine ⟨id, hid, ?_⟩
      rw [← hidr] at hru
      cases hg : s.get id with
      | none => rw [hg] at hru; cases hru
      | some v =>
          cases v with
          | bad => rw [hg] at hru; cases hru
          | ok w =>
              rw [hg] at hru
              injection hru with hw
              rw [hw]

/-- C5 witness: on a store indexing one good record, one corrupt record
and one dangling id, the list has length one (matching the count of ids
with parseable records) and the gauge is set to one; the empty store
answers `[]` unchanged. -/
theorem list_users_spec_witness :
    listUsers emptyStore = ({ status := 200, body := Body.users [] }, emptyStore) ∧
    (∃ us : List User,
      (listUsers
          { records := [("u1", Stored.ok
              { id := "u1", name := "Alice", email := "a@x.com", created_at := "t0", updated_at := "t0" }),
            ("b1", Stored.bad)]
            index := ["u1", "b1", "zz"], usersTotal := 7 }).1 =
        { status := 200, body := Body.users us } ∧
      (listUsers
          { records := [("u1", Stored.ok
              { id := "u1", name := "Alice", email := "a@x.com", created_at := "t0", updated_at := "t0" }),
            ("b1", Stored.bad)]
            index := ["u1", "b1", "zz"], usersTotal := 7 }).2 =
        { records := [("u1", Stored.ok
            { id := "u1", name := "Alice", email := "a@x.com", created_at := "t0", updated_at := "t0" }),
          ("b1", Stored.bad)]
          index := ["u1", "b1", "zz"], usersTotal := (us.length : Int) } ∧
      us.length = (["u1", "b1", "zz"].filter (fun id =>
        match Store.get
            { records := [("u1", Stored.ok
                { id := "u1", name := "Alice", email := "a@x.com", created_at := "t0", updated_at := "t0" }),
              ("b1", Stored.bad)]
              index := ["u1", "b1", "zz"], usersTotal := 7 } id with
        | some (Stored.ok _) => true
        | _ => false)).length ∧
      ∀ u ∈ us, ∃ id ∈ (["u1", "b1", "zz"] : List String),
        Store.get
            { records := [("u1", Stored.ok
                { id := "u1", name := "Alice", email := "a@x.com", created_at := "t0", updated_at := "t0" }),
              ("b1", Stored.bad)]
              index := ["u1", "b1", "zz"], usersTotal := 7 } id = some (Stored.ok u)) :=
  ⟨(list_users_spec emptyStore).1 rfl,
   (list_users_spec
       { records := [("u1", Stored.ok
           { id := "u1", name := "Alice", email := "a@x.com", created_at := "t0", updated_at := "t0" }),
         ("b1", Stored.bad)]
         index := ["u1", "b1", "zz"], usersTotal := 7 }).2 (by decide)⟩

/-- C6 witness: a successful upstream 200, a network failure, and an
upstream 404 carrying an error message. -/
theorem gateway_proxy_spec_witness :
    proxyUsers (UpstreamResult.success 200 "[]") =
      { status := 200, body := GatewayBody.passthrough "[]" } ∧
    proxyUsers UpstreamResult.networkFailure =
      { status := 502, body := GatewayBody.errorMsg "upstream_error" "User service no disponible" } ∧
    ((proxyUsers (UpstreamResult.httpError 404 (some "User not found"))).status = 404 ∧
      ∃ msg : String,
        proxyUsers (UpstreamResult.httpError 404 (some "User not found")) =
          { status := 404, body := GatewayBody.errorMsg "upstream_error" msg } ∧
        ((404 : Nat) ≠ 502 → ∀ t : String, (some "User not found" : Option String) = some t → msg = t)) :=
  ⟨gateway_proxy_spec.1 200 "[]", gateway_proxy_spec.2.1,
   gateway_proxy_spec.2.2 404 (some "User not found")⟩
